import Mathlib

/-!
Shallow embedding of the graceful-shutdown core in
`src/advance/ctx/graceful_shutdown/service/shutdown.go` (package `service`).

Pure data (the mux, the reject flag, the WaitGroup counter) is embedded
directly; effectful, time-dependent code (`waitInflight`'s select,
`shutdown`'s phase sequence, the supervisor's signal race) is embedded as
executable functions producing explicit timed results.  Durations are natural
numbers of seconds.  `Option Nat` encodes a future instant, `none` meaning
"never happens".  Per-server concurrent inputs (when the server's WaitGroup
would reach zero, how long `http.Server.Shutdown` blocks and what error it
returns) are supplied as an environment `Nat → ServerEnv`, indexed by the
server's position in `App.servers`.
-/

/-- The three package-level constants of `shutdown.go` (lines 14-18), in
seconds: overall shutdown budget 30s. -/
def shutdownTimeout : Nat := 30

/-- Drain wait: 10s (`waitTime` constant). -/
def waitTime : Nat := 10

/-- Callback-phase budget: 3s (`cbTimeout` constant). -/
def cbTimeout : Nat := 3

/-- Alias for the package constant `shutdownTimeout`: inside the `App`
namespace the structure field of the same name shadows the constant, exactly
as the Go source distinguishes the constant from `app.shutdownTimeout`. -/
def shutdownTimeoutConst : Nat := shutdownTimeout

/-- Alias for the package constant `cbTimeout` (see
`shutdownTimeoutConst`). -/
def cbTimeoutConst : Nat := cbTimeout

/-- A request is identified by its path; `net/http` request plumbing is an
external collaborator (spec §1) and is abstracted away. -/
abbrev Request := String

/-- An HTTP response: status code and body, the two observables the source
writes (`w.WriteHeader`, `w.Write`). -/
structure HTTPResponse where
  status : Nat
  body : String
deriving DecidableEq

/-- `http.StatusServiceUnavailable` from the Go standard library. -/
def StatusServiceUnavailable : Nat := 503

/-- A registered handler: the body of user routing logic, out of scope per
spec §1, abstracted to its response function. -/
abbrev Handler := Request → HTTPResponse

/-- `http.ServeMux`, abstracted to its registration list.  Its pattern
matching is external-collaborator behavior; dispatch is modelled as
first-registered exact-path lookup, with the stdlib 404 as default. -/
structure ServeMux where
  routes : List (String × Handler)

/-- `http.ServeMux.Handle`: registers a handler under a pattern. -/
def ServeMux.Handle (m : ServeMux) (pattern : String) (h : Handler) : ServeMux :=
  { routes := (pattern, h) :: m.routes }

/-- `http.ServeMux.ServeHTTP`: dispatch to the registered handler. -/
def ServeMux.ServeHTTP (m : ServeMux) (r : Request) : HTTPResponse :=
  match m.routes.find? (fun p => p.1 == r) with
  | some p => p.2 r
  | none => { status := 404, body := "404 page not found" }

/-- `serverMux` (lines 148-151): the request gate decorating `*http.ServeMux`
with the reject flag. -/
structure serverMux where
  reject : Bool
  serveMux : ServeMux

/-- The observable outcome of one pass through the gate: either the fixed
unavailable response was written, or the request was forwarded to the
underlying dispatcher and its response written. -/
inductive ServeOutcome where
  | rejected (resp : HTTPResponse)
  | forwarded (resp : HTTPResponse)
deriving DecidableEq

/-- `serverMux.ServeHTTP` (lines 153-160): if `reject` is set, answer 503
with the fixed body and return; otherwise delegate to the embedded
`ServeMux`. -/
def serverMux.ServeHTTP (s : serverMux) (r : Request) : ServeOutcome :=
  if s.reject then
    ServeOutcome.rejected { status := StatusServiceUnavailable, body := "服务已关闭" }
  else
    ServeOutcome.forwarded (s.serveMux.ServeHTTP r)

/-- `Server` (lines 140-145).  The `srv *http.Server` field only carries the
address and the `Handler` (which is `mux`); it is external and not stored.
`wg` is the current counter value of the `sync.WaitGroup`. -/
structure Server where
  name : String
  mux : serverMux
  wg : Nat

/-- `NewServer` (lines 162-173): fresh mux with `reject` unset, WaitGroup
counter zero.  `addr` only configures the external `http.Server`. -/
def NewServer (name addr : String) : Server :=
  { name := name
    mux := { reject := false, serveMux := { routes := [] } }
    wg := 0 }

/-- `Server.Handle` (lines 175-179): `s.wg.Add(1)`, registration on the mux,
then the deferred `s.wg.Done()` runs as the call returns. -/
def Server.Handle (s : Server) (pattern : String) (handler : Handler) : Server :=
  let s1 : Server := { s with wg := s.wg + 1 }
  let s2 : Server := { s1 with
    mux := { s1.mux with serveMux := s1.mux.serveMux.Handle pattern handler } }
  { s2 with wg := s2.wg - 1 }

/-- One request dispatched to the server: `net/http` invokes the server's
`Handler`, which is its `serverMux` (line 169).  No statement on this path
references `Server.wg`, so the server state is returned unchanged alongside
the gate's outcome. -/
def Server.serveRequest (s : Server) (r : Request) : Server × ServeOutcome :=
  (s, s.mux.ServeHTTP r)

/-- `Server.rejectReq` (lines 185-187): sets the gate's reject flag. -/
def Server.rejectReq (s : Server) : Server :=
  { s with mux := { s.mux with reject := true } }

/-- Which `select` branch `waitInflight` takes, i.e. which log line it
emits. -/
inductive DrainOutcome where
  | drained
  | timedOut
deriving DecidableEq

/-- `sync.WaitGroup.Wait` semantics: returns immediately when the counter is
zero; otherwise returns at the future instant the counter reaches zero
(`reachedZero`, an environment input driven by whoever else holds the
WaitGroup). -/
def wgWait (counter : Nat) (reachedZero : Option Nat) : Option Nat :=
  if counter = 0 then some 0 else reachedZero

/-- `Server.waitInflight` (lines 190-202): a goroutine signals a channel when
`s.wg.Wait()` returns; a `select` races that channel against
`time.After(time.Second * waitTime)`.  Result: elapsed seconds and which
branch fired (the function itself returns nothing in the source; the two
branches differ only in the log line).  A tie is resolved to the drain
branch (Go's select chooses either; no claim depends on the tie). -/
def Server.waitInflight (s : Server) (reachedZero : Option Nat) : Nat × DrainOutcome :=
  match wgWait s.wg reachedZero with
  | some t => if t ≤ waitTime then (t, DrainOutcome.drained) else (waitTime, DrainOutcome.timedOut)
  | none => (waitTime, DrainOutcome.timedOut)

/-- `context.Context`, abstracted to its deadline: `none` for
`context.Background()`, `some d` after `context.WithTimeout` where `d` is the
absolute deadline in seconds counted from the start of `shutdown()`. -/
structure Context where
  deadline : Option Nat

/-- Seconds left on the context's deadline at absolute time `now`
(`none` when the context has no deadline). -/
def Context.remainingAt (c : Context) (now : Nat) : Option Nat :=
  c.deadline.map (fun d => d - now)

/-- `ShutdownCallback` (line 26): `func(ctx context.Context)`.  The body is
user code (out of scope); a callback is abstracted to how many seconds it
runs given the context it receives. -/
abbrev ShutdownCallback := Context → Nat

/-- Per-server environment for one shutdown run: the instant (measured from
the start of that server's `wg.Wait`) at which its WaitGroup counter would
reach zero if nonzero, how long `srv.Shutdown` blocks, and the error it
returns. -/
structure ServerEnv where
  reachedZero : Option Nat
  stopDur : Nat
  stopErr : Option String

/-- The observables of one `Server.stop` call (lines 204-207): the log line
it prints, how long the external `srv.Shutdown(context.Background())`
blocks, and the error it returns to the caller. -/
structure StopCall where
  logLine : String
  dur : Nat
  err : Option String

/-- `Server.stop` (lines 204-207): logs `服务器<name>关闭中`, then returns
whatever `srv.Shutdown` returns. -/
def Server.stop (s : Server) (e : ServerEnv) : StopCall :=
  { logLine := "服务器" ++ s.name ++ "关闭中", dur := e.stopDur, err := e.stopErr }

/-- `App` (lines 36-48). -/
structure App where
  servers : List Server
  shutdownTimeout : Nat
  waitTime : Nat
  cbTimeout : Nat
  cbs : List ShutdownCallback

/-- Go's `type Option func(*App)` (line 21).  Named `AppOption` because
`Option` is taken by the Lean prelude. -/
abbrev AppOption := App → App

/-- `WithShutdownCallbacks` (lines 29-33): appends to `app.cbs`. -/
def WithShutdownCallbacks (cbs : List ShutdownCallback) : AppOption :=
  fun app => { app with cbs := app.cbs ++ cbs }

/-- `NewApp` (lines 51-62): fields default to the package constants, then
every option is applied in order. -/
def NewApp (servers : List Server) (opts : List AppOption) : App :=
  opts.foldl (fun a o => o a)
    { servers := servers
      shutdownTimeout := shutdownTimeout
      waitTime := waitTime
      cbTimeout := cbTimeout
      cbs := [] }

/-- `App.execCallBack` (lines 209-220): one goroutine per callback, each
receiving the same `ctx`; `wg.Wait()` joins them all, so the elapsed time of
the phase is the maximum of the callbacks' running times. -/
def App.execCallBack (app : App) (ctx : Context) : Nat :=
  (app.cbs.map (fun cb => cb ctx)).foldl max 0

/-- The drain loop of `shutdown` (lines 116-118): `waitInflight` on each
server in order, each wait starting after the previous one returned.  The
environment index follows the server's position. -/
def drainLoop (env : Nat → ServerEnv) : List Server → List (Nat × DrainOutcome)
  | [] => []
  | s :: ss => s.waitInflight (env 0).reachedZero :: drainLoop (fun i => env (i + 1)) ss

/-- The stop loop of `shutdown` (lines 121-123): `srv.stop()` on each server
in order; the returned error is bound to the blank identifier. -/
def stopLoop (env : Nat → ServerEnv) : List Server → List StopCall
  | [] => []
  | s :: ss => s.stop (env 0) :: stopLoop (fun i => env (i + 1)) ss

/-- Everything one call of `App.shutdown` does, with instants measured in
seconds from its entry. -/
structure ShutdownRun where
  /-- The context built at line 107 and later handed to `execCallBack`. -/
  ctx : Context
  /-- Per-server drain result, in server order. -/
  drainResults : List (Nat × DrainOutcome)
  /-- Instant the stop loop begins (all drain waits done). -/
  tStopStart : Nat
  /-- Per-server stop call, in server order. -/
  stopCalls : List StopCall
  /-- Stop errors `shutdown` retains or logs: line 122 reads
  `_ = srv.stop()`, so nothing is retained. -/
  collectedStopErrors : List String
  /-- Instant `execCallBack` begins (all stop calls returned). -/
  tCallbacksStart : Nat
  /-- Elapsed seconds of the callback phase (join over all callbacks). -/
  cbDur : Nat
  /-- Instant `shutdown` returns, after `close()`'s one-second sleep
  (lines 134-138). -/
  tEnd : Nat

/-- `App.shutdown` (lines 105-132), phase by phase: build the 3s-deadline
context (line 107, at instant 0), set every server's reject flag
(lines 111-113, instantaneous flag writes), run the drain loop, run the stop
loop, run the callbacks, then `close()` which sleeps one second. -/
def App.shutdown (app : App) (env : Nat → ServerEnv) : ShutdownRun :=
  let ctx : Context := { deadline := some cbTimeoutConst }
  let servers1 := app.servers.map Server.rejectReq
  let drainResults := drainLoop env servers1
  let tStopStart := (drainResults.map Prod.fst).sum
  let stopCalls := stopLoop env servers1
  let tCallbacksStart := tStopStart + (stopCalls.map StopCall.dur).sum
  let cbDur := app.execCallBack ctx
  { ctx := ctx
    drainResults := drainResults
    tStopStart := tStopStart
    stopCalls := stopCalls
    collectedStopErrors := []
    tCallbacksStart := tCallbacksStart
    cbDur := cbDur
    tEnd := tCallbacksStart + cbDur + 1 }

/-- The supervisor tail of `App.StartAndServe` (lines 84-101), from the
first termination signal (instant 0): `app.shutdown()` runs to completion
synchronously (line 88); only then (line 89) does the goroutine racing the
signal channel against `time.After(time.Second * shutdownTimeout)` start.
The channel has capacity 1, so a second signal delivered earlier is buffered
and received as soon as the race starts.  Result: the instant `os.Exit(1)`
runs.  `secondSignal` is the delivery instant of a second termination
signal, `none` if it never arrives. -/
def App.forceExitTime (app : App) (env : Nat → ServerEnv) (secondSignal : Option Nat) : Nat :=
  let tShutdownEnd := (app.shutdown env).tEnd
  match secondSignal with
  | none => tShutdownEnd + shutdownTimeoutConst
  | some s => min (max s tShutdownEnd) (tShutdownEnd + shutdownTimeoutConst)

/-! Concrete instances used to evaluate the model at specific inputs. -/

/-- A business handler registered on the example server. -/
def okHandler : Handler := fun _ => { status := 200, body := "ok" }

/-- A server built through the public API: `NewServer` followed by one
completed `Handle` call. -/
def businessServer : Server := (NewServer "business" ":8080").Handle "/" okHandler

/-- One-server app for the supervisor-race evaluation. -/
def appC2 : App :=
  { servers := [NewServer "only" ":8081"]
    shutdownTimeout := 30, waitTime := 10, cbTimeout := 3, cbs := [] }

/-- Environment for `appC2`: drained WaitGroup, `srv.Shutdown` blocks 6s,
no stop error.  The resulting shutdown lasts 7s. -/
def envC2 : Nat → ServerEnv := fun _ =>
  { reachedZero := some 0, stopDur := 6, stopErr := none }

/-- One-server app whose configured timeout fields differ from the package
constants: overall 60s, drain 5s, callback 7s.  The server's WaitGroup
counter is nonzero (a `Handle` call in flight), so its drain wait blocks. -/
def appC4 : App :=
  { servers := [{ name := "api", mux := { reject := false, serveMux := { routes := [] } }, wg := 1 }]
    shutdownTimeout := 60, waitTime := 5, cbTimeout := 7, cbs := [] }

/-- Environment for `appC4`: the counter never reaches zero, stops are
instant and error-free. -/
def envC4 : Nat → ServerEnv := fun _ =>
  { reachedZero := none, stopDur := 0, stopErr := none }

/-- One-server app with a single 2s callback, default timeouts. -/
def appC5 : App :=
  { servers := [NewServer "web" ":8082"]
    shutdownTimeout := 30, waitTime := 10, cbTimeout := 3, cbs := [fun _ => 2] }

/-- Environment for `appC5`: drained WaitGroup; `srv.Shutdown` blocks 5s
(it waits for active connections), so the callback phase starts at t=5. -/
def envC5 : Nat → ServerEnv := fun _ =>
  { reachedZero := some 0, stopDur := 5, stopErr := none }

/-- Two servers whose WaitGroup counters are nonzero, default timeouts. -/
def appC6 : App :=
  { servers :=
      [{ name := "s1", mux := { reject := false, serveMux := { routes := [] } }, wg := 1 },
       { name := "s2", mux := { reject := false, serveMux := { routes := [] } }, wg := 1 }]
    shutdownTimeout := 30, waitTime := 10, cbTimeout := 3, cbs := [] }

/-- Environment for `appC6`: neither counter ever reaches zero. -/
def envC6 : Nat → ServerEnv := fun _ =>
  { reachedZero := none, stopDur := 0, stopErr := none }

/-- Two healthy servers, default timeouts. -/
def appC8 : App :=
  { servers := [NewServer "a" ":1", NewServer "b" ":2"]
    shutdownTimeout := 30, waitTime := 10, cbTimeout := 3, cbs := [] }

/-- Environment for `appC8`: the first server's `srv.Shutdown` returns an
error, the second's succeeds. -/
def envC8 : Nat → ServerEnv := fun i =>
  if i = 0 then { reachedZero := some 0, stopDur := 0, stopErr := some "connection reset" }
  else { reachedZero := some 0, stopDur := 0, stopErr := none }

/-! Helper lemmas about the model. -/

/-- Projections of `App.shutdown`, unfolded once: the drain loop runs on the
rejected servers. -/
theorem shutdown_drainResults (app : App) (env : Nat → ServerEnv) :
    (app.shutdown env).drainResults = drainLoop env (app.servers.map Server.rejectReq) := rfl

/-- The stop loop runs on the rejected servers. -/
theorem shutdown_stopCalls (app : App) (env : Nat → ServerEnv) :
    (app.shutdown env).stopCalls = stopLoop env (app.servers.map Server.rejectReq) := rfl

/-- The stop phase starts when the sum of the sequential drain waits has
elapsed. -/
theorem shutdown_tStopStart (app : App) (env : Nat → ServerEnv) :
    (app.shutdown env).tStopStart = ((app.shutdown env).drainResults.map Prod.fst).sum := rfl

/-- The callback phase starts when additionally the sum of the sequential
stop calls has elapsed. -/
theorem shutdown_tCallbacksStart (app : App) (env : Nat → ServerEnv) :
    (app.shutdown env).tCallbacksStart
      = (app.shutdown env).tStopStart + ((app.shutdown env).stopCalls.map StopCall.dur).sum := rfl

/-- `shutdown` returns after the callback join plus `close()`'s 1s sleep. -/
theorem shutdown_tEnd (app : App) (env : Nat → ServerEnv) :
    (app.shutdown env).tEnd = (app.shutdown env).tCallbacksStart + (app.shutdown env).cbDur + 1 := rfl

/-- `drainLoop` visits every server. -/
theorem drainLoop_length (env : Nat → ServerEnv) (ss : List Server) :
    (drainLoop env ss).length = ss.length := by
  induction ss generalizing env with
  | nil => rfl
  | cons s t ih => simp [drainLoop, ih]

/-- `stopLoop` visits every server. -/
theorem stopLoop_length (env : Nat → ServerEnv) (ss : List Server) :
    (stopLoop env ss).length = ss.length := by
  induction ss generalizing env with
  | nil => rfl
  | cons s t ih => simp [stopLoop, ih]

/-- A prefix sum never exceeds the total sum. -/
theorem sum_take_le (l : List Nat) (n : Nat) : (l.take n).sum ≤ l.sum := by
  induction l generalizing n with
  | nil => simp
  | cons a t ih =>
    cases n with
    | zero => simp
    | succ m => simpa using Nat.add_le_add_left (ih m) a

/-- `Handle` leaves the WaitGroup counter where it found it: the `Add(1)` is
undone by the deferred `Done()` before the call returns. -/
theorem Handle_wg (s : Server) (pattern : String) (handler : Handler) :
    (s.Handle pattern handler).wg = s.wg := by
  simp [Server.Handle]

/-- Any sequence of completed `Handle` calls leaves the counter unchanged. -/
theorem foldl_Handle_wg (calls : List (String × Handler)) (s : Server) :
    (calls.foldl (fun t pc => t.Handle pc.1 pc.2) s).wg = s.wg := by
  induction calls generalizing s with
  | nil => rfl
  | cons c cs ih => rw [List.foldl_cons, ih, Handle_wg]

/-- With a zero counter, `wg.Wait` fires instantly and `waitInflight`
returns at once through the drain branch. -/
theorem waitInflight_zero (s : Server) (reached : Option Nat) (h : s.wg = 0) :
    s.waitInflight reached = (0, DrainOutcome.drained) := by
  simp [Server.waitInflight, wgWait, h]

/-- `waitInflight` never blocks longer than the `waitTime` constant. -/
theorem waitInflight_fst_le (s : Server) (reached : Option Nat) :
    (s.waitInflight reached).1 ≤ waitTime := by
  unfold Server.waitInflight
  cases wgWait s.wg reached with
  | none => simp
  | some t => by_cases ht : t ≤ waitTime <;> simp [ht]

/-- Every entry of the drain-loop result is bounded by the `waitTime`
constant (the default also is). -/
theorem drainLoop_getD_fst_le (env : Nat → ServerEnv) (ss : List Server) (i : Nat) :
    ((drainLoop env ss).getD i (0, DrainOutcome.drained)).1 ≤ waitTime := by
  induction ss generalizing env i with
  | nil => simp [drainLoop]
  | cons s t ih =>
    cases i with
    | zero => simpa [drainLoop] using waitInflight_fst_le s (env 0).reachedZero
    | succ n => simpa [drainLoop] using ih (fun k => env (k + 1)) n

/-- The i-th drain-loop entry is exactly the i-th server's own
`waitInflight` under its own environment entry: the waits are independent
per server (out of range, both sides give the instant-drain value). -/
theorem drainLoop_getD (ss : List Server) (env : Nat → ServerEnv) (i : Nat) :
    (drainLoop env (ss.map Server.rejectReq)).getD i (0, DrainOutcome.drained)
      = ((ss.getD i (NewServer "" "")).rejectReq).waitInflight (env i).reachedZero := by
  induction ss generalizing env i with
  | nil => simp [drainLoop, NewServer, Server.rejectReq, Server.waitInflight, wgWait]
  | cons s t ih =>
    cases i with
    | zero => simp [drainLoop]
    | succ n => simpa [drainLoop] using ih (fun k => env (k + 1)) n

/-- Folding `WithShutdownCallbacks` options only appends callbacks; every
other field is untouched. -/
theorem withCbs_foldl (cbss : List (List ShutdownCallback)) (a : App) :
    (cbss.map WithShutdownCallbacks).foldl (fun x o => o x) a
      = { a with cbs := a.cbs ++ cbss.flatten } := by
  induction cbss generalizing a with
  | nil => simp
  | cons c t ih => simp [WithShutdownCallbacks, ih, List.append_assoc]

/-! Claim theorems. -/

/-- C1 (code bug): the claim says the in-flight counter is incremented when
a request begins dispatch through the gate and decremented when its handler
completes.  On a server built through the public API (`NewServer` + one
completed `Handle` call), dispatching a request with the reject flag unset
forwards it to the handler while the WaitGroup counter stays at 0
throughout: the source touches the counter only inside `Server.Handle`
(route registration), never on the `serverMux.ServeHTTP` request path. -/
theorem requests_never_counted_inflight :
    businessServer.wg = 0
  ∧ businessServer.mux.reject = false
  ∧ (businessServer.serveRequest "/").1.wg = 0
  ∧ (businessServer.serveRequest "/").2 = ServeOutcome.forwarded { status := 200, body := "ok" } := by
  refine ⟨rfl, rfl, rfl, ?_⟩
  rfl

/-- C2 (code bug): a second termination signal delivered at t=1s during a
shutdown that takes 7s does not force-exit at t=1.  In the source, the
goroutine racing the signal channel against the 30s timer is started only
after `app.shutdown()` has returned, so `os.Exit(1)` runs at t=7, the
instant shutdown completes — never while `shutdown()` is still running. -/
theorem force_exit_waits_for_shutdown :
    (appC2.shutdown envC2).tEnd = 7
  ∧ appC2.forceExitTime envC2 (some 1) = 7
  ∧ appC2.forceExitTime envC2 (some 1) ≠ 1 := by
  decide

/-- C3 (confirmed): in every shutdown run, every server is drained and every
server is stopped (no phase skipped, fan-out complete); each server's drain
wait completes (its completion instant, a prefix sum of the sequential
waits, is at most `tStopStart`) before any stop call is made; every stop
call has returned by `tCallbacksStart`, before any callback starts; and the
release phase ends the run after the callback phase. -/
theorem shutdown_phase_barriers (app : App) (env : Nat → ServerEnv) (i j : Nat) :
    (app.shutdown env).drainResults.length = app.servers.length
  ∧ (app.shutdown env).stopCalls.length = app.servers.length
  ∧ (((app.shutdown env).drainResults.map Prod.fst).take i).sum ≤ (app.shutdown env).tStopStart
  ∧ (app.shutdown env).tStopStart + (((app.shutdown env).stopCalls.map StopCall.dur).take j).sum
      ≤ (app.shutdown env).tCallbacksStart
  ∧ (app.shutdown env).tCallbacksStart ≤ (app.shutdown env).tEnd := by
  refine ⟨?_, ?_, ?_, ?_, ?_⟩
  · rw [shutdown_drainResults, drainLoop_length, List.length_map]
  · rw [shutdown_stopCalls, stopLoop_length, List.length_map]
  · rw [shutdown_tStopStart]; exact sum_take_le _ _
  · rw [shutdown_tCallbacksStart]; exact Nat.add_le_add_left (sum_take_le _ _) _
  · rw [shutdown_tEnd]; omega

/-- C4 (counterexample): an `App` whose timeout fields are configured to
60/5/7 still shuts down with the package constants: the context deadline is
3s, not the configured `cbTimeout` of 7, and the drain wait of its blocked
server lasts 10s, not the configured `waitTime` of 5 — the configured
values are not the ones used by the corresponding waits. -/
theorem configured_timeouts_unused :
    appC4.cbTimeout = 7
  ∧ (appC4.shutdown envC4).ctx.deadline = some 3
  ∧ (appC4.shutdown envC4).ctx.deadline ≠ some appC4.cbTimeout
  ∧ appC4.waitTime = 5
  ∧ (appC4.shutdown envC4).drainResults.map Prod.fst = [10]
  ∧ (appC4.shutdown envC4).drainResults.map Prod.fst ≠ [appC4.waitTime] := by
  decide

/-- C4 (amended): the options mechanism configures only callbacks —
applying any list of `WithShutdownCallbacks` options leaves the three
timeout fields at their defaults (30, 10, 3) and appends the callbacks —
and the waits of every shutdown run use the package constants regardless of
the `App`'s fields: the context deadline is always `cbTimeout` and every
drain wait is bounded by `waitTime`. -/
theorem timeouts_fixed_constants (servers : List Server)
    (cbss : List (List ShutdownCallback)) (app : App) (env : Nat → ServerEnv) (i : Nat) :
    (NewApp servers (cbss.map WithShutdownCallbacks)).shutdownTimeout = shutdownTimeout
  ∧ (NewApp servers (cbss.map WithShutdownCallbacks)).waitTime = waitTime
  ∧ (NewApp servers (cbss.map WithShutdownCallbacks)).cbTimeout = cbTimeout
  ∧ (NewApp servers (cbss.map WithShutdownCallbacks)).servers = servers
  ∧ (NewApp servers (cbss.map WithShutdownCallbacks)).cbs = cbss.flatten
  ∧ (app.shutdown env).ctx.deadline = some cbTimeout
  ∧ ((app.shutdown env).drainResults.getD i (0, DrainOutcome.drained)).1 ≤ waitTime := by
  refine ⟨?_, ?_, ?_, ?_, ?_, rfl, ?_⟩
  · rw [NewApp, withCbs_foldl]
  · rw [NewApp, withCbs_foldl]
  · rw [NewApp, withCbs_foldl]
  · rw [NewApp, withCbs_foldl]
  · rw [NewApp, withCbs_foldl]; exact List.nil_append _
  · rw [shutdown_drainResults]; exact drainLoop_getD_fst_le _ _ _

/-- C5 (counterexample): with one server whose `srv.Shutdown` blocks 5s, the
callback phase starts at t=5, but the context handed to the callbacks was
created at the top of `shutdown()` with absolute deadline 3s, so at the
start of the callback phase 0 seconds of budget remain, not the full 3s the
claim asserts: the earlier phases consumed the whole budget. -/
theorem callback_deadline_consumed :
    (appC5.shutdown envC5).tCallbacksStart = 5
  ∧ (appC5.shutdown envC5).ctx.deadline = some 3
  ∧ (appC5.shutdown envC5).ctx.remainingAt (appC5.shutdown envC5).tCallbacksStart = some 0
  ∧ (appC5.shutdown envC5).ctx.remainingAt (appC5.shutdown envC5).tCallbacksStart
      ≠ some cbTimeout := by
  decide

/-- C5 (amended): every registered callback receives the same
deadline-bound context, but its 3s deadline is measured from the start of
`shutdown()` (where `context.WithTimeout` is called), before the reject,
drain and stop phases; the budget remaining when the callback phase starts
is `cbTimeout` minus the time those phases consumed. -/
theorem callback_ctx_deadline_from_shutdown_start (app : App) (env : Nat → ServerEnv) :
    (app.shutdown env).ctx.deadline = some cbTimeout
  ∧ (app.shutdown env).cbDur
      = (app.cbs.map (fun cb => cb (app.shutdown env).ctx)).foldl max 0
  ∧ (app.shutdown env).ctx.remainingAt (app.shutdown env).tCallbacksStart
      = some (cbTimeout - (app.shutdown env).tCallbacksStart) := by
  exact ⟨rfl, rfl, rfl⟩

/-- C6 (counterexample): with two servers whose drain waits both time out at
10s, the drain phase of `shutdown` costs 20s — the sum of the two waits —
whereas the claim's maximum would be 10s: the loop runs `waitInflight`
sequentially, not as one concurrent task per server. -/
theorem drain_cost_is_sum_not_max :
    (appC6.shutdown envC6).drainResults.map Prod.fst = [10, 10]
  ∧ (appC6.shutdown envC6).tStopStart = 20
  ∧ ((appC6.shutdown envC6).drainResults.map Prod.fst).foldl max 0 = 10
  ∧ (appC6.shutdown envC6).tStopStart
      ≠ ((appC6.shutdown envC6).drainResults.map Prod.fst).foldl max 0 := by
  decide

/-- C6 (amended): the drain phase runs `waitInflight` on every server
sequentially in registration order — the i-th entry of the drain results is
exactly the i-th server's own independent wait — and the phase's wall-clock
cost, the instant the stop phase starts, is the sum of the individual
waits. -/
theorem drain_phase_sequential_sum (app : App) (env : Nat → ServerEnv) (i : Nat) :
    (app.shutdown env).tStopStart = ((app.shutdown env).drainResults.map Prod.fst).sum
  ∧ (app.shutdown env).drainResults.length = app.servers.length
  ∧ (app.shutdown env).drainResults.getD i (0, DrainOutcome.drained)
      = ((app.servers.getD i (NewServer "" "")).rejectReq).waitInflight (env i).reachedZero := by
  refine ⟨rfl, ?_, ?_⟩
  · rw [shutdown_drainResults, drainLoop_length, List.length_map]
  · rw [shutdown_drainResults]; exact drainLoop_getD _ _ _

/-- C7 (confirmed): `waitInflight` blocks until the WaitGroup counter
reaches zero or the 10s drain timeout elapses, whichever is first — the
elapsed time is the minimum of the two, and the drain branch (rather than
the timeout log line) is taken exactly when the counter reaches zero within
the timeout.  No error is produced (the result is only the elapsed time and
the logged outcome), and in every shutdown run the stop phase is reached
with a stop call per server, whatever the drain outcomes were. -/
theorem waitInflight_min_then_stop (s : Server) (reached : Option Nat)
    (app : App) (env : Nat → ServerEnv) :
    ((s.waitInflight reached).1
      = match wgWait s.wg reached with
        | none => waitTime
        | some t => min t waitTime)
  ∧ ((s.waitInflight reached).2 = DrainOutcome.drained ↔
      (match wgWait s.wg reached with
        | none => False
        | some t => t ≤ waitTime))
  ∧ (app.shutdown env).stopCalls.length = app.servers.length := by
  refine ⟨?_, ?_, ?_⟩
  · cases h : wgWait s.wg reached with
    | none => simp [Server.waitInflight, h]
    | some t =>
      by_cases ht : t ≤ waitTime
      · simp [Server.waitInflight, h, ht, Nat.min_eq_left ht]
      · simp [Server.waitInflight, h, ht, Nat.min_eq_right (Nat.le_of_not_le ht)]
  · cases h : wgWait s.wg reached with
    | none => simp [Server.waitInflight, h]
    | some t =>
      by_cases ht : t ≤ waitTime
      · simp [Server.waitInflight, h, ht]
      · simp [Server.waitInflight, h, ht]
  · rw [shutdown_stopCalls, stopLoop_length, List.length_map]

/-- C8 (counterexample): with two servers whose first `srv.Shutdown` returns
an error, the stop calls do return that error, but `shutdown` retains and
logs none of it (line 122 discards it into the blank identifier, and the
only stop-phase log lines are the fixed per-server closing messages): the
error is not collected and not logged. -/
theorem stop_error_not_collected :
    (appC8.shutdown envC8).stopCalls.map StopCall.err = [some "connection reset", none]
  ∧ (appC8.shutdown envC8).stopCalls.map StopCall.logLine = ["服务器a关闭中", "服务器b关闭中"]
  ∧ (appC8.shutdown envC8).collectedStopErrors = [] := by
  decide

/-- C8 (amended): errors returned by `stop()` are discarded — never
collected, logged or propagated — and, as the claim also says, a failing
server blocks nothing: in every run every server's `stop()` is called and
the callback and release phases still execute. -/
theorem stop_errors_discarded_nonblocking (app : App) (env : Nat → ServerEnv) :
    (app.shutdown env).collectedStopErrors = []
  ∧ (app.shutdown env).stopCalls.length = app.servers.length
  ∧ (app.shutdown env).tEnd = (app.shutdown env).tCallbacksStart + (app.shutdown env).cbDur + 1 := by
  refine ⟨rfl, ?_, rfl⟩
  rw [shutdown_stopCalls, stopLoop_length, List.length_map]

/-- C9 (confirmed): while the reject flag is false the gate forwards every
request to the underlying dispatcher unchanged; after `rejectReq()` every
request — the server state being left untouched by serving — receives the
fixed 503 "服务已关闭" response and is never forwarded. -/
theorem request_gate_forward_then_reject (m : ServeMux) (s : Server) (r r2 : Request) :
    serverMux.ServeHTTP { reject := false, serveMux := m } r
      = ServeOutcome.forwarded (m.ServeHTTP r)
  ∧ ((s.rejectReq).serveRequest r2).2
      = ServeOutcome.rejected { status := StatusServiceUnavailable, body := "服务已关闭" }
  ∧ ((s.rejectReq).serveRequest r2).1 = s.rejectReq
  ∧ (s.rejectReq).mux.reject = true := by
  exact ⟨rfl, rfl, rfl, rfl⟩

/-- C10 (confirmed): every `Server.Handle` call pairs its WaitGroup
increment with the deferred decrement inside the same call, so the counter
is unchanged by each call; after any sequence of completed `Handle` calls
on a freshly constructed server the counter is 0, and consequently
`waitInflight` completes immediately through the drain branch, whatever
requests are executing (for every `reachedZero` environment). -/
theorem handle_pairs_add_done (s : Server) (pattern : String) (handler : Handler)
    (name addr : String) (calls : List (String × Handler)) (reached : Option Nat) :
    (s.Handle pattern handler).wg = s.wg
  ∧ (calls.foldl (fun t pc => t.Handle pc.1 pc.2) (NewServer name addr)).wg = 0
  ∧ (calls.foldl (fun t pc => t.Handle pc.1 pc.2) (NewServer name addr)).waitInflight reached
      = (0, DrainOutcome.drained) := by
  refine ⟨Handle_wg s pattern handler, ?_, ?_⟩
  · rw [foldl_Handle_wg]; rfl
  · exact waitInflight_zero _ _ (by rw [foldl_Handle_wg]; rfl)
